import Mathlib

/-!
# Verification of the Concurrent Resource Acquisition Engine

A shallow embedding, in Lean 4, of the core of the repository:

* `src/image-downloader/src/models.py` — the request/result data model;
* `src/image-downloader/src/downloader.py` — `ImageDownloader`
  (`_get_file_extension`, `_download_single_image`, `download_batch`) and the
  retry configuration it installs on its HTTP session;
* `src/data-scraper-service/src/image_cache.py` — `ImageCache`;
* `src/orchestrator/src/workflow.py` — `Workflow._check_existing_images`.

Effectful pieces (wall clock, network, threads, filesystem) are made explicit
parameters: timestamps and durations are integers (seconds), the filesystem is
a function from path to optional file size, and each task's interaction with
the network is an explicit outcome value.  Python `dict`s keyed by strings are
association lists whose update removes the previous binding, so a key maps to
at most one entry.  Result collection order in `download_batch` (Python's
`as_completed`) is an explicit list quantified over all permutations of the
submission list.
-/

namespace Spec2Proof

/-! ## String primitives

The Python string operations the embedded code uses (`str.lower`,
`str.replace` with one-character arguments, `str.split` with a
one-character separator, `in`, `str.startswith`, `str.join`) are modelled
by structural recursion over a string's character list, so that every
definition in this file evaluates by kernel reduction on concrete input. -/

/-- Python `s.lower()` (the inputs here are ASCII, where `Char.toLower`
agrees with Python). -/
def strToLower (s : String) : String :=
  ⟨s.data.map Char.toLower⟩

/-- Python `s.replace(a, b)` for one-character `a` and `b`. -/
def strReplaceChar (a b : Char) (s : String) : String :=
  ⟨s.data.map (fun ch => if ch = a then b else ch)⟩

/-- Python `c in s` for a one-character `c`. -/
def strContains (s : String) (c : Char) : Bool :=
  s.data.contains c

/-- Python `s.startswith(pre)`. -/
def strStartsWith (s pre : String) : Bool :=
  pre.data.isPrefixOf s.data

/-- Python `s.split(sep)` for a one-character separator, on character
lists: separators are not merged and empty pieces are kept. -/
def splitOnChar (c : Char) : List Char → List (List Char)
  | [] => [[]]
  | a :: rest =>
      if a = c then
        [] :: splitOnChar c rest
      else
        match splitOnChar c rest with
        | [] => [[a]]
        | h :: t => (a :: h) :: t

/-- Python `sep.join(pieces)` for a one-character separator, on character
lists. -/
def joinWithChar (c : Char) : List (List Char) → List Char
  | [] => []
  | [l] => l
  | l :: rest => l ++ c :: joinWithChar c rest

/-- Python `s.split(c)[0]`: everything strictly before the first `c`. -/
def dropFromChar (c : Char) : List Char → List Char
  | [] => []
  | a :: rest => if a = c then [] else a :: dropFromChar c rest

/-- The suffix from the first occurrence of `c` (inclusive), empty when `c`
does not occur. -/
def fromFirstChar (c : Char) : List Char → List Char
  | [] => []
  | a :: rest => if a = c then a :: rest else fromFirstChar c rest

/-- The suffix after the first occurrence of the marker `"://"`, when
present. -/
def afterSchemeMarker : List Char → Option (List Char)
  | ':' :: '/' :: '/' :: rest => some rest
  | _ :: rest => afterSchemeMarker rest
  | [] => none

/-! ## models.py -/

/-- `DownloadRequest` from `src/image-downloader/src/models.py`.  The
`metadata` field (an opaque mapping, defaulted to `{}` and never read by the
downloader) is elided. -/
structure DownloadRequest where
  image_url : String
  name : String
  source : String
  category : String
  deriving Repr, DecidableEq

/-- Computed field `source_type`: `f"{self.source}_{self.category}"`. -/
def DownloadRequest.source_type (r : DownloadRequest) : String :=
  r.source ++ "_" ++ r.category

/-- `self.name.lower().replace(" ", "_")` — the filename stem used by
`DownloadRequest.target_path` and by the orchestrator's existence probe. -/
def safeName (name : String) : String :=
  strReplaceChar ' ' '_' (strToLower name)

/-- Computed field `target_path`:
`os.path.join(f"/tmp/{self.source_type}", f"{safe_name}.jpg")`. -/
def DownloadRequest.target_path (r : DownloadRequest) : String :=
  "/tmp/" ++ r.source_type ++ "/" ++ safeName r.name ++ ".jpg"

/-- `DownloadResult` from `models.py`.  `metadata` (opaque, never read) is
elided; `file_size` and `download_time` are `Optional` in the source but set
at every construction site in `downloader.py`, so they are plain numbers
here (durations in whole seconds). -/
structure DownloadResult where
  image_url : String
  target_path : String
  is_successful : Bool
  error_message : Option String
  file_size : Nat
  download_time : Nat
  deriving Repr, DecidableEq

/-- `BatchDownloadRequest` from `models.py`.  The pydantic range constraints
(`max_concurrent` in 1..20, `timeout_seconds` in 5..300) restrict accepted
inputs but play no role in the downloader itself. -/
structure BatchDownloadRequest where
  downloads : List DownloadRequest
  max_concurrent : Nat
  timeout_seconds : Nat
  deriving Repr, DecidableEq

/-- `BatchDownloadResult` from `models.py`; the wall-clock `timestamp` string
is elided. -/
structure BatchDownloadResult where
  results : List DownloadResult
  total_count : Nat
  success_count : Nat
  failure_count : Nat
  total_time : Nat
  deriving Repr, DecidableEq

/-! ## image_cache.py

`ImageCache` stores a Python dict from string keys to
`{"url": ..., "cached_at": ..., "metadata": ...}` dicts.  The dict is an
association list; `cached_at` (an ISO-8601 string in the source, written from
`datetime.now` and parsed back on every read) is an integer timestamp in
seconds.  The `except` branch of `_is_expired` (malformed timestamp treated
as expired) is unreachable in this model, where every stored timestamp is a
number.  `metadata` (opaque, stored but never read back) is elided.  The
`threading.Lock` serialises the operations; each operation is modelled as a
pure state transition, i.e. as its behaviour under that serialisation. -/

/-- One cache entry: `{"url": image_url, "cached_at": now}`. -/
structure CacheEntry where
  url : String
  cached_at : Int
  deriving Repr, DecidableEq

/-- `ImageCache.__init__`: `ttl_seconds = ttl_hours * 3600` and an empty dict. -/
structure ImageCache where
  ttl_seconds : Nat
  cache : List (String × CacheEntry)
  deriving Repr, DecidableEq

/-- `_get_cache_key`: `f"{category}:{item_name.lower()}"`. -/
def _get_cache_key (category item_name : String) : String :=
  category ++ ":" ++ strToLower item_name

/-- `_is_expired`: `(now - cached_time).total_seconds() > self.ttl_seconds`. -/
def _is_expired (ttl_seconds : Nat) (now cached_at : Int) : Bool :=
  decide (now - cached_at > (ttl_seconds : Int))

/-- Python `dict` read: the binding for `k`, if any. -/
def dictLookup (k : String) (l : List (String × CacheEntry)) : Option CacheEntry :=
  (l.find? (fun p => p.1 == k)).map Prod.snd

/-- Python `del d[k]`. -/
def dictErase (k : String) (l : List (String × CacheEntry)) : List (String × CacheEntry) :=
  l.filter (fun p => !(p.1 == k))

/-- Python `d[k] = v`: at most one binding per key survives. -/
def dictInsert (k : String) (v : CacheEntry) (l : List (String × CacheEntry)) :
    List (String × CacheEntry) :=
  l.filter (fun p => !(p.1 == k)) ++ [(k, v)]

/-- `ImageCache.get_image_url`: read-time expiry check; an expired entry is
deleted as a side effect and reported absent.  Returns the optional URL and
the cache state after the call. -/
def get_image_url (c : ImageCache) (now : Int) (category item_name : String) :
    Option String × ImageCache :=
  let key := _get_cache_key category item_name
  match dictLookup key c.cache with
  | some entry =>
      if _is_expired c.ttl_seconds now entry.cached_at then
        (none, { c with cache := dictErase key c.cache })
      else
        (some entry.url, c)
  | none => (none, c)

/-- `ImageCache.set_image_url`: unconditional upsert stamping `cached_at = now`. -/
def set_image_url (c : ImageCache) (now : Int) (category item_name image_url : String) :
    ImageCache :=
  { c with cache := dictInsert (_get_cache_key category item_name) ⟨image_url, now⟩ c.cache }

/-- `ImageCache.has_changed`: true iff the (non-expired) cached URL differs
from `new_url`; absence counts as changed.  Uses `get_image_url`, so it also
performs that read's expiry side effect. -/
def has_changed (c : ImageCache) (now : Int) (category item_name new_url : String) :
    Bool × ImageCache :=
  let r := get_image_url c now category item_name
  (!(r.1 == some new_url), r.2)

/-- `ImageCache.clear_by_category`: with a category, remove the keys with
prefix `f"{category}:"` and return how many; with `None`, remove everything
and return the prior size.  Returns the count and the new state. -/
def clear_by_category (c : ImageCache) (category : Option String) : Nat × ImageCache :=
  match category with
  | some cat =>
      ((c.cache.filter (fun p => strStartsWith p.1 (cat ++ ":"))).length,
       { c with cache := c.cache.filter (fun p => !(strStartsWith p.1 (cat ++ ":"))) })
  | none => (c.cache.length, { c with cache := [] })

/-- `ImageCache.clear_by_source_category`: the source argument is ignored —
the body is `return self.clear_by_category(category)`. -/
def clear_by_source_category (c : ImageCache) (source category : String) : Nat × ImageCache :=
  let _ := source
  clear_by_category c (some category)

/-- `ImageCache.clear_all`: `return self.clear_by_category()`. -/
def clear_all (c : ImageCache) : Nat × ImageCache :=
  clear_by_category c none

/-- The dictionary returned by `ImageCache.get_stats` (its constant
`"status": "active"` field elided). -/
structure CacheStats where
  total_cached_items : Nat
  ttl_hours : Nat
  expired_cleaned : Nat
  deriving Repr, DecidableEq

/-- `ImageCache.get_stats`: purge every entry found expired at call time,
then report the surviving count, the TTL in hours, and how many were purged. -/
def get_stats (c : ImageCache) (now : Int) : CacheStats × ImageCache :=
  let remaining := c.cache.filter (fun p => !(_is_expired c.ttl_seconds now p.2.cached_at))
  (⟨remaining.length, c.ttl_seconds / 3600, c.cache.length - remaining.length⟩,
   { c with cache := remaining })

/-! ## downloader.py — retry configuration and the HTTP session

`ImageDownloader.__init__` installs
`Retry(total=3, backoff_factor=1, status_forcelist=[403, 429, 500, 502, 503, 504])`
on its `requests.Session`.  The retry loop itself runs inside the third-party
urllib3 library, not in this repository; what follows models the documented
contract of `urllib3.util.retry.Retry` that this configuration invokes:
`total` bounds the number of retries beyond the initial attempt (the source's
own comment reads `total=3,  # 3 retries`), a connection error, a timeout, or
a response whose status is in `status_forcelist` is retried, any other
response is returned as is, and `get_backoff_time` sleeps
`backoff_factor * 2 ** (len(history) - 1)` seconds before a retry — except
before the first retry, where it returns `0` (`if consecutive_errors_len <= 1:
return 0` in `urllib3/util/retry.py`, version 1.26). -/

/-- The three keyword arguments of the `Retry(...)` call in
`ImageDownloader.__init__`. -/
structure RetryConfig where
  total : Nat
  backoff_factor : Nat
  status_forcelist : List Nat
  deriving Repr, DecidableEq

/-- `Retry(total=3, backoff_factor=1, status_forcelist=[403, 429, 500, 502, 503, 504])`. -/
def downloaderRetryConfig : RetryConfig :=
  ⟨3, 1, [403, 429, 500, 502, 503, 504]⟩

/-- An HTTP response as the downloader observes it: status code, the
`content-type` header with the source's `headers.get('content-type', '')`
default already applied, and the body length in bytes. -/
structure HttpResponse where
  status : Nat
  content_type : String
  body_size : Nat
  deriving Repr, DecidableEq

/-- What one low-level request attempt produces. -/
inductive AttemptOutcome where
  | connError (msg : String)
  | timedOut
  | response (resp : HttpResponse)
  deriving Repr, DecidableEq

/-- `Retry` treats connection errors, timeouts, and responses whose status is
in `status_forcelist` as retryable. -/
def isRetryableAttempt (cfg : RetryConfig) : AttemptOutcome → Bool
  | .connError _ => true
  | .timedOut => true
  | .response r => cfg.status_forcelist.contains r.status

/-- Number of requests actually issued, given the outcome of the i-th attempt:
the attempts run until the first non-retryable outcome, and at most
`cfg.total` retries follow the initial attempt. -/
def attemptsMade (cfg : RetryConfig) (att : Nat → AttemptOutcome) : Nat :=
  match (List.range (cfg.total + 1)).find? (fun i => !(isRetryableAttempt cfg (att i))) with
  | some i => i + 1
  | none => cfg.total + 1

/-- `Retry.get_backoff_time` with `history` of the given length: `0` when at
most one attempt has happened, else `backoff_factor * 2 ** (len - 1)`
seconds (the `BACKOFF_MAX` cap, 120 s, is far above every value reached
here and is elided). -/
def get_backoff_time (cfg : RetryConfig) (historyLen : Nat) : Nat :=
  if historyLen ≤ 1 then 0 else cfg.backoff_factor * 2 ^ (historyLen - 1)

/-- The sleeps performed between consecutive attempts: before the k-th retry
the history holds k attempts. -/
def backoffSleeps (cfg : RetryConfig) (att : Nat → AttemptOutcome) : List Nat :=
  (List.range (attemptsMade cfg att - 1)).map (fun j => get_backoff_time cfg (j + 1))

/-- Outcome of `self.session.get(...)` as `_download_single_image` observes
it: a response, or one of the two `requests` exception families it catches. -/
inductive FetchOutcome where
  | ok (resp : HttpResponse)
  | timedOut
  | requestError (msg : String)
  deriving Repr, DecidableEq

/-- `session.get` through the retrying adapter: the first non-retryable
attempt's response is returned; a non-retryable connection error or timeout
cannot occur (those kinds are always retryable); when the budget is
exhausted the session raises, which `_download_single_image` observes as a
`RequestException` (the exact exception class depends on the last attempt's
kind; no caller inspects it beyond its string). -/
def sessionFetch (cfg : RetryConfig) (att : Nat → AttemptOutcome) : FetchOutcome :=
  match (List.range (cfg.total + 1)).find? (fun i => !(isRetryableAttempt cfg (att i))) with
  | some i =>
      match att i with
      | .response r => .ok r
      | .connError m => .requestError m
      | .timedOut => .timedOut
  | none => .requestError "Max retries exceeded"

/-! ## downloader.py — `_get_file_extension` and path handling -/

/-- Path component of a URL, as `urllib.parse.urlparse(url).path` computes it
for the URLs this system handles (absolute `http(s)://` URLs, or scheme-less
strings, without `;`-parameters): the fragment (from the first `#`) and the
query (from the first `?`) are cut off; with a `://` present the authority —
up to the first following `/` — is skipped. -/
def urlparsePath (url : String) : String :=
  let noFrag := dropFromChar '#' url.data
  let noQuery := dropFromChar '?' noFrag
  match afterSchemeMarker noQuery with
  | none => ⟨noQuery⟩
  | some rest => ⟨fromFirstChar '/' rest⟩

/-- `os.path.splitext(p)[0]` (posixpath): the extension starts at the last
`.` of the final path component, except that leading dots of that component
do not start an extension. -/
def splitextBase (p : String) : String :=
  let segs := splitOnChar '/' p.data
  let base := segs.getLastD []
  let leading := base.takeWhile (fun ch => ch = '.')
  let rest := base.dropWhile (fun ch => ch = '.')
  let restBase :=
    if rest.contains '.' then joinWithChar '.' ((splitOnChar '.' rest).dropLast) else rest
  ⟨(if segs.length ≤ 1 then [] else joinWithChar '/' segs.dropLast ++ ['/']) ++
    leading ++ restBase⟩

/-- `ImageDownloader._get_file_extension`: try the (lowercased) URL path's
text after its last dot, else the content type's text after its last slash;
otherwise raise `ValueError` — modelled as `Except.error` carrying the
exception's message. -/
def _get_file_extension (url : String) (content_type : String) : Except String String :=
  let path := strToLower (urlparsePath url)
  if strContains path '.' then
    .ok ("." ++ (⟨(splitOnChar '.' path.data).getLastD []⟩ : String))
  else if strContains content_type '/' then
    .ok ("." ++ strToLower ⟨(splitOnChar '/' content_type.data).getLastD []⟩)
  else
    .error ("Cannot determine file extension for URL: " ++ url ++ ", Content-Type: " ++
      content_type)

/-- `os.path.dirname(p)` for the slash-containing absolute paths used here:
everything before the last `/`. -/
def dirname (p : String) : String :=
  ⟨joinWithChar '/' ((splitOnChar '/' p.data).dropLast)⟩

/-! ## downloader.py — `_download_single_image` -/

/-- The environment one worker call observes: whether `os.makedirs`
succeeded, what `session.get` produced, whether streaming the body to disk
raised (the `except Exception` catch-all; `none` means the write succeeded
and `os.path.getsize` returned the body size), and the task's wall-clock
duration in seconds. -/
structure TaskEnv where
  dir_ok : Bool
  fetch : FetchOutcome
  write_error : Option String
  elapsed : Nat
  deriving Repr, DecidableEq

/-- The failed `DownloadResult` every error branch of
`_download_single_image` builds: `file_size=0` and the branch's message. -/
def failedResult (url path msg : String) (elapsed : Nat) : DownloadResult :=
  ⟨url, path, false, some msg, 0, elapsed⟩

/-- `ImageDownloader._download_single_image`: ensure the directory, fetch,
check the status (`raise_for_status` raises for statuses ≥ 400, caught as a
`RequestException`), derive the extension (a `ValueError` is caught), stream
to `splitext(target_path)[0] + extension` (any exception is caught by the
final `except Exception`).  Every branch returns a `DownloadResult`; nothing
propagates. -/
def _download_single_image (req : DownloadRequest) (env : TaskEnv) : DownloadResult :=
  if env.dir_ok = false then
    failedResult req.image_url req.target_path "Failed to create target directory" env.elapsed
  else
    match env.fetch with
    | .timedOut =>
        failedResult req.image_url req.target_path
          ("Timeout downloading " ++ req.name ++ " from " ++ req.image_url) env.elapsed
    | .requestError m =>
        failedResult req.image_url req.target_path
          ("Request failed for " ++ req.name ++ ": " ++ m) env.elapsed
    | .ok resp =>
        if 400 ≤ resp.status then
          failedResult req.image_url req.target_path
            ("Request failed for " ++ req.name ++ ": HTTP error " ++ toString resp.status)
            env.elapsed
        else
          match _get_file_extension req.image_url resp.content_type with
          | .error m =>
              failedResult req.image_url req.target_path
                ("Invalid file format for " ++ req.name ++ ": " ++ m) env.elapsed
          | .ok ext =>
              match env.write_error with
              | some m =>
                  failedResult req.image_url req.target_path
                    ("Unexpected error downloading " ++ req.name ++ ": " ++ m) env.elapsed
              | none =>
                  ⟨req.image_url, splitextBase req.target_path ++ ext, true, none,
                   resp.body_size, env.elapsed⟩

/-! ## downloader.py — `download_batch` -/

/-- What `future.result()` yields for one submitted task: the worker's
returned `DownloadResult`, or an exception escaping the worker (the case the
`except` around `future.result()` guards against). -/
inductive WorkerOutcome where
  | ok (r : DownloadResult)
  | raised (msg : String)
  deriving Repr, DecidableEq

/-- The body of the `as_completed` loop for one future: a returned result is
kept; an exception becomes a failed result with the
`"Thread execution failed"` message, `file_size=0` and `download_time=0.0`. -/
def processFuture (request : DownloadRequest) : WorkerOutcome → DownloadResult
  | .ok r => r
  | .raised msg =>
      ⟨request.image_url, request.target_path, false,
       some ("Thread execution failed for " ++ request.name ++ ": " ++ msg), 0, 0⟩

/-- `ImageDownloader.download_batch`.  `worker` abstracts one
`_download_single_image` call (applied to the request and
`batch_request.timeout_seconds`); `order` is the order in which
`as_completed` yields the futures — any permutation of
`batch_request.downloads`; `batchElapsed` is the measured wall-clock
duration of the non-empty batch.  An empty batch returns all-zero counts and
`total_time = 0.0` before creating the executor.  `max_concurrent` is never
read. -/
def download_batch (worker : DownloadRequest → Nat → WorkerOutcome)
    (batch : BatchDownloadRequest) (order : List DownloadRequest) (batchElapsed : Nat) :
    BatchDownloadResult :=
  if batch.downloads.length = 0 then
    ⟨[], 0, 0, 0, 0⟩
  else
    let results := order.map (fun r => processFuture r (worker r batch.timeout_seconds))
    ⟨results,
     batch.downloads.length,
     (results.filter (fun r => r.is_successful)).length,
     (results.filter (fun r => !r.is_successful)).length,
     batchElapsed⟩

/-! ## workflow.py — `Workflow._check_existing_images` -/

/-- One scraped item as the orchestrator sees it: a dict with optional
`image_url` and `name` fields (`item.get('image_url')`,
`item.get('name', 'unknown')`). -/
structure Item where
  image_url : Option String
  name : Option String
  deriving Repr, DecidableEq

/-- `possible_extensions = ['.jpg', '.jpeg', '.png', '.gif']`. -/
def possible_extensions : List String :=
  [".jpg", ".jpeg", ".png", ".gif"]

/-- The existence probe inlined in `_check_existing_images`: some recognized
extension names a file under `/tmp/{source}_{category}/` that exists and has
non-zero size.  `fs` maps a path to the size of the file there, `none` when
absent; the loop's early `break` and `any`'s short-circuit agree. -/
def artifactExists (fs : String → Option Nat) (source category name : String) : Bool :=
  possible_extensions.any (fun ext =>
    let filename := safeName name ++ ext
    let file_path := "/tmp/" ++ source ++ "_" ++ category ++ "/" ++ filename
    match fs file_path with
    | some size => decide (0 < size)
    | none => false)

/-- `Workflow._check_existing_images`: walk the items in order; an item
whose `image_url` is falsy — missing or the empty string, per the source's
truthiness test `if not image_url: continue` — is skipped; an item whose
artifact already exists is skipped; the rest are returned, in order, as the
download plan. -/
def _check_existing_images (fs : String → Option Nat) (source category : String)
    (items : List Item) : List Item :=
  items.filter (fun item =>
    !(item.image_url.getD "" == "") &&
      !(artifactExists fs source category (item.name.getD "unknown")))

/-! ## Concrete fixtures used by witnesses and counterexamples -/

/-- An attempt stream on which every request comes back `503 Service
Unavailable` — a status in the configured `status_forcelist`. -/
def allServerError : Nat → AttemptOutcome :=
  fun _ => .response ⟨503, "", 0⟩

/-- A request whose URL path carries no extension. -/
def reqNoExt : DownloadRequest :=
  ⟨"http://example.com/image", "Lion", "wikipedia", "animals"⟩

/-- A task environment delivering a successful response with an empty
`content-type` header. -/
def envNoCT : TaskEnv :=
  ⟨true, .ok ⟨200, "", 5⟩, none, 2⟩

/-- A concrete request, batch and workers used to instantiate the batch
theorems. -/
def exRequest : DownloadRequest :=
  ⟨"http://example.com/a.jpg", "Lion", "wikipedia", "animals"⟩

/-- A worker whose future raises, exercising the `except` arm of the
result-collection loop. -/
def exRaisingWorker : DownloadRequest → Nat → WorkerOutcome :=
  fun _ _ => .raised "boom"

/-- A cache holding two `animals` entries (conceptually discovered by
different sources — the key does not record a source) and one `plants`
entry. -/
def exCache : ImageCache :=
  ⟨86400, [("animals:lion", ⟨"http://l", 0⟩), ("animals:tiger", ⟨"http://t", 0⟩),
           ("plants:rose", ⟨"http://r", 0⟩)]⟩

/-- A disk on which only the lion's artifact exists. -/
def fsWithLion : String → Option Nat :=
  fun p => if p = "/tmp/wikipedia_animals/lion.jpg" then some 5 else none

/-- A worker that raises on the bison and succeeds on everything else. -/
def exWorkerAB : DownloadRequest → Nat → WorkerOutcome :=
  fun q _ =>
    if q.name = "Bison" then .raised "boom"
    else .ok ⟨q.image_url, q.target_path, true, none, 10, 1⟩

/-! ## Shared lemmas -/

/-- Splitting the collected results into successes and failures preserves
their number. -/
theorem length_filter_success_split (l : List DownloadResult) :
    (l.filter (fun r => r.is_successful)).length +
      (l.filter (fun r => !r.is_successful)).length = l.length := by
  induction l with
  | nil => rfl
  | cons a t ih =>
    cases h : a.is_successful <;> simp [List.filter_cons, h] <;> omega

/-! ## Claims about `download_batch` -/

/-- C1: for every task list submitted to `download_batch` — whatever each
task's worker returns or raises, and whatever order `as_completed` yields
the futures in — the returned `BatchDownloadResult` has exactly one result
per submitted task, and
`success_count + failure_count = total_count = |results| = |tasks|`. -/
theorem C1_batch_result_counts (w : DownloadRequest → Nat → WorkerOutcome)
    (batch : BatchDownloadRequest) (order : List DownloadRequest) (e : Nat)
    (hperm : order.Perm batch.downloads) :
    (download_batch w batch order e).results.length = batch.downloads.length ∧
    (download_batch w batch order e).total_count = batch.downloads.length ∧
    (download_batch w batch order e).success_count +
        (download_batch w batch order e).failure_count =
      (download_batch w batch order e).total_count ∧
    (download_batch w batch order e).total_count =
      (download_batch w batch order e).results.length := by
  by_cases h : batch.downloads.length = 0
  · have h0 : batch.downloads = [] := List.length_eq_zero.mp h
    refine ⟨?_, ?_, ?_, ?_⟩ <;> simp [download_batch, h0]
  · have hlen : order.length = batch.downloads.length := hperm.length_eq
    refine ⟨?_, ?_, ?_, ?_⟩
    · simp [download_batch, h, hlen]
    · simp [download_batch, h]
    · have hsplit := length_filter_success_split
        (order.map (fun r => processFuture r (w r batch.timeout_seconds)))
      simp only [List.length_map] at hsplit
      simp only [download_batch, h, if_false]
      rw [hsplit]
      exact hlen
    · simp [download_batch, h, hlen]

/-- C1 witness: the counting invariant evaluated on a one-task batch whose
worker raises. -/
theorem C1_witness :
    (download_batch exRaisingWorker ⟨[exRequest], 5, 30⟩ [exRequest] 7).success_count +
        (download_batch exRaisingWorker ⟨[exRequest], 5, 30⟩ [exRequest] 7).failure_count =
      (download_batch exRaisingWorker ⟨[exRequest], 5, 30⟩ [exRequest] 7).total_count :=
  (C1_batch_result_counts exRaisingWorker ⟨[exRequest], 5, 30⟩ [exRequest] 7
    (List.Perm.refl _)).2.2.1

/-- C7: `download_batch` on an empty task list returns all-zero counts, an
empty result list and `total_time = 0`, whatever the measured elapsed time
would have been — and without starting any worker: the result does not
depend on the worker function at all. -/
theorem C7_empty_batch (w : DownloadRequest → Nat → WorkerOutcome)
    (batch : BatchDownloadRequest) (order : List DownloadRequest) (e : Nat)
    (h : batch.downloads = []) :
    download_batch w batch order e = ⟨[], 0, 0, 0, 0⟩ ∧
    ∀ w' : DownloadRequest → Nat → WorkerOutcome,
      download_batch w' batch order e = download_batch w batch order e := by
  constructor
  · simp [download_batch, h]
  · intro w'
    simp [download_batch, h]

/-- C7 witness: the empty batch evaluated with a raising worker and a
nonzero ambient elapsed time. -/
theorem C7_witness :
    download_batch exRaisingWorker ⟨[], 5, 30⟩ [] 99 = ⟨[], 0, 0, 0, 0⟩ :=
  (C7_empty_batch exRaisingWorker ⟨[], 5, 30⟩ [] 99 rfl).1

/-- C8: `download_batch` never reads the request's `max_concurrent` field —
two batch requests that differ only in `max_concurrent` produce identical
results (the thread-pool width is the executor's own `max_workers`). -/
theorem C8_max_concurrent_ignored (w : DownloadRequest → Nat → WorkerOutcome)
    (batch : BatchDownloadRequest) (mc : Nat) (order : List DownloadRequest) (e : Nat) :
    download_batch w { batch with max_concurrent := mc } order e =
      download_batch w batch order e := rfl

/-! ## Claims about `ImageCache` -/

/-- Erasing a key leaves no element that the lookup predicate accepts. -/
theorem find?_erased_none (k : String) (l : List (String × CacheEntry)) :
    (l.filter (fun p => !(p.1 == k))).find? (fun p => p.1 == k) = none := by
  apply List.find?_eq_none.mpr
  intro x hx
  have hxk := (List.mem_filter.mp hx).2
  simp only [Bool.not_eq_true'] at hxk
  simp [hxk]

/-- `find?` skips a prefix in which nothing matches. -/
theorem find?_append_right {α : Type} (p : α → Bool) {l₁ : List α} (l₂ : List α)
    (h : l₁.find? p = none) : (l₁ ++ l₂).find? p = l₂.find? p := by
  induction l₁ with
  | nil => simp
  | cons a t ih =>
    cases hpa : p a
    · have h' : t.find? p = none := by
        rwa [List.find?_cons_of_neg _ (by simp [hpa])] at h
      rw [List.cons_append, List.find?_cons_of_neg _ (by simp [hpa])]
      exact ih h'
    · rw [List.find?_cons_of_pos _ hpa] at h
      cases h

/-- Reading a key straight after upserting it yields the new entry. -/
theorem dictLookup_insert (k : String) (v : CacheEntry) (l : List (String × CacheEntry)) :
    dictLookup k (dictInsert k v l) = some v := by
  unfold dictLookup dictInsert
  rw [find?_append_right _ _ (find?_erased_none k l)]
  simp

/-- Every surviving binding of an erasure has a different key. -/
theorem mem_dictErase_ne (k : String) (l : List (String × CacheEntry)) :
    ∀ p ∈ dictErase k l, p.1 ≠ k := by
  intro p hp
  unfold dictErase at hp
  have h := (List.mem_filter.mp hp).2
  simp only [Bool.not_eq_true'] at h
  intro hk
  simp [hk] at h

/-- C3: a cache entry stored at time `T` with locator `L` under a
`(namespace, itemKey)` pair is returned unchanged — with the cache state
untouched — by every `get` at a time up to `T + ttl`; a `get` at any time
strictly later than `T + ttl` returns absent and deletes the entry as a side
effect, so that no surviving entry carries its key and a subsequent `stats`
query — whose reported count is the number of entries surviving its own
purge — no longer counts it. -/
theorem C3_ttl_read_semantics (c : ImageCache) (T : Int) (cat item L : String) :
    (∀ now : Int, now ≤ T + (c.ttl_seconds : Int) →
        get_image_url (set_image_url c T cat item L) now cat item =
          (some L, set_image_url c T cat item L)) ∧
    (∀ now : Int, T + (c.ttl_seconds : Int) < now →
        (get_image_url (set_image_url c T cat item L) now cat item).1 = none ∧
        (∀ p ∈ (get_image_url (set_image_url c T cat item L) now cat item).2.cache,
            p.1 ≠ _get_cache_key cat item) ∧
        ∀ now2 : Int,
          (∀ p ∈ (get_stats (get_image_url (set_image_url c T cat item L) now cat item).2
              now2).2.cache, p.1 ≠ _get_cache_key cat item) ∧
          (get_stats (get_image_url (set_image_url c T cat item L) now cat item).2
              now2).1.total_cached_items =
            ((get_stats (get_image_url (set_image_url c T cat item L) now cat item).2
              now2).2.cache).length) := by
  have hlookup : dictLookup (_get_cache_key cat item)
      (dictInsert (_get_cache_key cat item) ⟨L, T⟩ c.cache) = some ⟨L, T⟩ :=
    dictLookup_insert _ _ _
  constructor
  · intro now hnow
    have hexp : _is_expired c.ttl_seconds now T = false := by
      simp only [_is_expired, decide_eq_false_iff_not]
      omega
    simp [get_image_url, set_image_url, hlookup, hexp]
  · intro now hnow
    have hexp : _is_expired c.ttl_seconds now T = true := by
      simp only [_is_expired, decide_eq_true_eq]
      omega
    have hget : get_image_url (set_image_url c T cat item L) now cat item =
        (none, ⟨c.ttl_seconds,
          dictErase (_get_cache_key cat item)
            (dictInsert (_get_cache_key cat item) ⟨L, T⟩ c.cache)⟩) := by
      simp [get_image_url, set_image_url, hlookup, hexp]
    refine ⟨by rw [hget], ?_, ?_⟩
    · intro p hp
      rw [hget] at hp
      exact mem_dictErase_ne _ _ p hp
    · intro now2
      constructor
      · intro p hp
        rw [hget] at hp
        simp only [get_stats] at hp
        exact mem_dictErase_ne _ _ p (List.mem_filter.mp hp).1
      · rw [hget]
        simp [get_stats]

/-- C3 witness: with a 3600-second TTL and an entry stored at time 0, a read
at 3600 still returns the locator and a read at 3601 returns absent. -/
theorem C3_witness :
    get_image_url (set_image_url ⟨3600, []⟩ 0 "animals" "Lion" "http://img") 3600
        "animals" "Lion"
      = (some "http://img", set_image_url ⟨3600, []⟩ 0 "animals" "Lion" "http://img") ∧
    (get_image_url (set_image_url ⟨3600, []⟩ 0 "animals" "Lion" "http://img") 3601
        "animals" "Lion").1 = none := by
  constructor
  · exact (C3_ttl_read_semantics ⟨3600, []⟩ 0 "animals" "Lion" "http://img").1 3600 (by decide)
  · exact ((C3_ttl_read_semantics ⟨3600, []⟩ 0 "animals" "Lion" "http://img").2 3601
      (by decide)).1

/-- C9: `clear_by_source_category` ignores its source argument — it removes
exactly the entries `clear_by_category` removes for the category and returns
the same count, whichever source is named, and afterwards no entry of that
category (cached on behalf of any source) survives. -/
theorem C9_source_ignored (c : ImageCache) (source category : String) :
    clear_by_source_category c source category = clear_by_category c (some category) ∧
    (∀ source' : String,
        clear_by_source_category c source' category =
          clear_by_source_category c source category) ∧
    ∀ p ∈ (clear_by_source_category c source category).2.cache,
      ¬ strStartsWith p.1 (category ++ ":") := by
  refine ⟨rfl, fun _ => rfl, ?_⟩
  intro p hp
  simp only [clear_by_source_category, clear_by_category] at hp
  have h := (List.mem_filter.mp hp).2
  simp only [Bool.not_eq_true'] at h
  simp [h]

/-- C9 witness: clearing `animals` on behalf of the source `"flickr"`
reports exactly the two `animals` entries removed. -/
theorem C9_witness : (clear_by_source_category exCache "flickr" "animals").1 = 2 := by
  rw [(C9_source_ignored exCache "flickr" "animals").1]
  decide

/-! ## Claims about the download plan (`_check_existing_images`) -/

/-- C4 counterexample: an item with no `image_url` and no artifact on disk —
`artifactExists` is false for it — is nevertheless dropped from the plan, so
the plan does not exclude exactly the items whose artifact exists. -/
theorem C4_counterexample :
    artifactExists (fun _ => none) "wikipedia" "animals" "lion" = false ∧
    _check_existing_images (fun _ => none) "wikipedia" "animals"
      [⟨none, some "lion"⟩] = [] := by
  exact ⟨rfl, rfl⟩

/-- C4 (amended): `plan()` first drops the candidate items whose
`image_url` is missing or empty (the source's truthiness guard); among the
items with a non-empty `image_url` it excludes exactly those for which
`ArtifactProbe.exists` is true, emits a task for every other item, and
preserves the relative order of the remaining items. -/
theorem C4_plan_excludes (fs : String → Option Nat) (source category : String)
    (items : List Item) :
    (_check_existing_images fs source category items).Sublist items ∧
    ∀ i : Item, i ∈ _check_existing_images fs source category items ↔
      (i ∈ items ∧ i.image_url.getD "" ≠ "" ∧
        artifactExists fs source category (i.name.getD "unknown") = false) := by
  refine ⟨List.filter_sublist _, fun i => ?_⟩
  simp [_check_existing_images, List.mem_filter, Bool.and_eq_true, Bool.not_eq_true',
    and_assoc]

/-- C4 witness: with the lion's artifact on disk, the shark — which has a
URL and no artifact — is planned for download. -/
theorem C4_witness :
    (⟨some "http://s", some "Shark"⟩ : Item) ∈
      _check_existing_images fsWithLion "wikipedia" "animals"
        [⟨some "http://l", some "Lion"⟩, ⟨some "http://s", some "Shark"⟩] :=
  ((C4_plan_excludes fsWithLion "wikipedia" "animals"
      [⟨some "http://l", some "Lion"⟩, ⟨some "http://s", some "Shark"⟩]).2
    ⟨some "http://s", some "Shark"⟩).mpr
    ⟨by decide, by decide, by decide⟩

/-! ## Failure isolation in `download_batch` -/

/-- C5: once workers have started, a failure or unexpected exception raised
inside one task's worker is never propagated out of `download_batch` (the
embedding of `download_batch` is a total function into
`BatchDownloadResult`): it is converted into a result with
`is_successful = false` carrying the `"Thread execution failed"` error
message and counted as a failure, and the sibling tasks' results are
unaffected — at every position held by a different request, the outcome is
the same as under any worker function that agrees outside the failing
request. -/
theorem C5_failure_isolation
    (w w' : DownloadRequest → Nat → WorkerOutcome) (batch : BatchDownloadRequest)
    (order : List DownloadRequest) (e : Nat)
    (hperm : order.Perm batch.downloads)
    (r : DownloadRequest) (msg : String)
    (hmem : r ∈ batch.downloads)
    (hr : w r batch.timeout_seconds = .raised msg)
    (hagree : ∀ q : DownloadRequest, q ≠ r → ∀ t : Nat, w' q t = w q t) :
    (∃ dr ∈ (download_batch w batch order e).results,
        dr.is_successful = false ∧
        dr.image_url = r.image_url ∧
        dr.error_message =
          some ("Thread execution failed for " ++ r.name ++ ": " ++ msg)) ∧
    1 ≤ (download_batch w batch order e).failure_count ∧
    (download_batch w' batch order e).results.length =
      (download_batch w batch order e).results.length ∧
    (∀ i : Nat, ∀ hi : i < order.length, order[i] ≠ r →
        (download_batch w' batch order e).results[i]? =
          (download_batch w batch order e).results[i]?) := by
  have hne : ¬ batch.downloads.length = 0 := by
    intro h0
    rw [List.length_eq_zero] at h0
    rw [h0] at hmem
    exact List.not_mem_nil r hmem
  have hro : r ∈ order := hperm.mem_iff.mpr hmem
  refine ⟨?_, ?_, ?_, ?_⟩
  · refine ⟨processFuture r (w r batch.timeout_seconds), ?_, ?_⟩
    · simp only [download_batch, hne, if_false]
      exact List.mem_map_of_mem _ hro
    · rw [hr]
      exact ⟨rfl, rfl, rfl⟩
  · simp only [download_batch, hne, if_false]
    have hdr : processFuture r (w r batch.timeout_seconds) ∈
        (order.map (fun q => processFuture q (w q batch.timeout_seconds))).filter
          (fun x => !x.is_successful) := by
      apply List.mem_filter.mpr
      refine ⟨List.mem_map_of_mem _ hro, ?_⟩
      rw [hr]
      rfl
    have hpos := List.length_pos.mpr (List.ne_nil_of_mem hdr)
    omega
  · simp only [download_batch, hne, if_false]
    simp
  · intro i hi hir
    have hq := hagree order[i] hir batch.timeout_seconds
    simp only [download_batch, hne, if_false, List.getElem?_map,
      List.getElem?_eq_getElem hi, Option.map_some']
    rw [hq]

/-- C5 witness: in a two-task batch whose second worker raises, the batch
still completes and counts at least one failure. -/
theorem C5_witness :
    1 ≤ (download_batch exWorkerAB
        ⟨[⟨"http://a", "Alpaca", "wikipedia", "animals"⟩,
          ⟨"http://b", "Bison", "wikipedia", "animals"⟩], 5, 30⟩
        [⟨"http://a", "Alpaca", "wikipedia", "animals"⟩,
          ⟨"http://b", "Bison", "wikipedia", "animals"⟩] 3).failure_count :=
  (C5_failure_isolation exWorkerAB exWorkerAB
    ⟨[⟨"http://a", "Alpaca", "wikipedia", "animals"⟩,
      ⟨"http://b", "Bison", "wikipedia", "animals"⟩], 5, 30⟩
    [⟨"http://a", "Alpaca", "wikipedia", "animals"⟩,
      ⟨"http://b", "Bison", "wikipedia", "animals"⟩] 3
    (List.Perm.refl _) ⟨"http://b", "Bison", "wikipedia", "animals"⟩ "boom"
    (by decide) (by decide) (fun q hq t => rfl)).2.1

/-! ## Claims about extension derivation and the retry policy -/

/-- C6: for every successful HTTP response reaching content placement, the
destination extension is derived first from the (lowercased) URL path's
text after its last dot; else from the declared content type's subtype
(text after its last slash, lowercased); and when neither yields an
extension the task becomes a failed result carrying the undeterminable-
format (`"Invalid file format"` / `"Cannot determine file extension"`)
error — never a silently defaulted extension — and that error is terminal:
the response that triggered it was itself obtained on the first attempt,
with no retries and no backoff sleeps. -/
theorem C6_extension_policy (req : DownloadRequest) (env : TaskEnv) (resp : HttpResponse)
    (hdir : env.dir_ok = true) (hfetch : env.fetch = .ok resp)
    (hstatus : resp.status < 400) (hwrite : env.write_error = none) :
    (strContains (strToLower (urlparsePath req.image_url)) '.' = true →
        (_download_single_image req env).is_successful = true ∧
        (_download_single_image req env).target_path =
          splitextBase req.target_path ++ ("." ++
            (⟨(splitOnChar '.' (strToLower (urlparsePath req.image_url)).data).getLastD []⟩ :
              String))) ∧
    (strContains (strToLower (urlparsePath req.image_url)) '.' = false →
      strContains resp.content_type '/' = true →
        (_download_single_image req env).is_successful = true ∧
        (_download_single_image req env).target_path =
          splitextBase req.target_path ++ ("." ++
            strToLower ⟨(splitOnChar '/' resp.content_type.data).getLastD []⟩)) ∧
    (strContains (strToLower (urlparsePath req.image_url)) '.' = false →
      strContains resp.content_type '/' = false →
        (_download_single_image req env).is_successful = false ∧
        (_download_single_image req env).error_message =
          some ("Invalid file format for " ++ req.name ++ ": " ++
            ("Cannot determine file extension for URL: " ++ req.image_url ++
              ", Content-Type: " ++ resp.content_type)) ∧
        attemptsMade downloaderRetryConfig (fun _ => .response resp) = 1 ∧
        backoffSleeps downloaderRetryConfig (fun _ => .response resp) = []) := by
  have hnot400 : ¬ 400 ≤ resp.status := by omega
  refine ⟨?_, ?_, ?_⟩
  · intro hpath
    have hext : _get_file_extension req.image_url resp.content_type =
        .ok ("." ++
          (⟨(splitOnChar '.' (strToLower (urlparsePath req.image_url)).data).getLastD []⟩ :
            String)) := by
      simp [_get_file_extension, hpath]
    constructor <;>
      simp [_download_single_image, hdir, hfetch, hnot400, hwrite, hext]
  · intro hpath hct
    have hext : _get_file_extension req.image_url resp.content_type =
        .ok ("." ++ strToLower ⟨(splitOnChar '/' resp.content_type.data).getLastD []⟩) := by
      simp [_get_file_extension, hpath, hct]
    constructor <;>
      simp [_download_single_image, hdir, hfetch, hnot400, hwrite, hext]
  · intro hpath hct
    have hext : _get_file_extension req.image_url resp.content_type =
        .error ("Cannot determine file extension for URL: " ++ req.image_url ++
          ", Content-Type: " ++ resp.content_type) := by
      simp [_get_file_extension, hpath, hct]
    have hretry : isRetryableAttempt downloaderRetryConfig (.response resp) = false := by
      simp only [isRetryableAttempt, downloaderRetryConfig]
      cases hc : ([403, 429, 500, 502, 503, 504] : List Nat).contains resp.status
      · rfl
      · exfalso
        have hmemc : resp.status ∈ ([403, 429, 500, 502, 503, 504] : List Nat) :=
          List.elem_iff.mp hc
        simp only [List.mem_cons, List.not_mem_nil, or_false] at hmemc
        omega
    have hp : (fun i => !(isRetryableAttempt downloaderRetryConfig
        ((fun _ => AttemptOutcome.response resp) i))) 0 = true := by
      simp [hretry]
    have hfind : (List.range (downloaderRetryConfig.total + 1)).find?
        (fun i => !(isRetryableAttempt downloaderRetryConfig
          ((fun _ => AttemptOutcome.response resp) i))) = some 0 := by
      rw [show List.range (downloaderRetryConfig.total + 1) = 0 :: [1, 2, 3] from rfl]
      exact List.find?_cons_of_pos _ hp
    have hattempts : attemptsMade downloaderRetryConfig (fun _ => .response resp) = 1 := by
      unfold attemptsMade
      rw [hfind]
    refine ⟨?_, ?_, hattempts, ?_⟩
    · simp [_download_single_image, hdir, hfetch, hnot400, hwrite, hext, failedResult]
    · simp [_download_single_image, hdir, hfetch, hnot400, hwrite, hext, failedResult]
    · unfold backoffSleeps
      rw [hattempts]
      rfl

/-- C6 witness: a URL with no path extension and a response with an empty
content type give a failed result, obtained without any retry. -/
theorem C6_witness :
    (_download_single_image reqNoExt envNoCT).is_successful = false ∧
    attemptsMade downloaderRetryConfig (fun _ => .response ⟨200, "", 5⟩) = 1 := by
  have h := (C6_extension_policy reqNoExt envNoCT ⟨200, "", 5⟩ rfl rfl (by decide) rfl).2.2
    (by decide) (by decide)
  exact ⟨h.1, h.2.2.1⟩

/-- C2 counterexample: with the configured `Retry(total=3, backoff_factor=1,
...)`, an attempt stream that always returns 503 is issued 4 requests — not
the 3 attempts the claim states — and the sleeps between consecutive
attempts are 0 s, 2 s and 4 s, not 1 s, 2 s and 4 s. -/
theorem C2_counterexample :
    attemptsMade downloaderRetryConfig allServerError = 4 ∧
    attemptsMade downloaderRetryConfig allServerError ≠ 3 ∧
    backoffSleeps downloaderRetryConfig allServerError = [0, 2, 4] ∧
    backoffSleeps downloaderRetryConfig allServerError ≠ [1, 2, 4] := by
  decide

/-- C2 (amended): for every fetch whose attempts all fail with a
transport-level transient failure — a connection error, a timeout, or an
HTTP status in {403, 429, 500, 502, 503, 504} — the session issues 4
attempts in total (the initial request plus the configured 3 retries), with
exponential backoff sleeps of 0 s, 2 s and 4 s between consecutive
attempts, so at least 3 seconds (in fact 6) elapse in backoff before the
task is marked failed, and the exhausted fetch never yields a response; a
fetch whose first attempt fails non-transiently performs exactly one
attempt and sleeps not at all. -/
theorem C2_retry_schedule :
    (∀ att : Nat → AttemptOutcome,
        (∀ i : Nat, i < 4 → isRetryableAttempt downloaderRetryConfig (att i) = true) →
        attemptsMade downloaderRetryConfig att = 4 ∧
        backoffSleeps downloaderRetryConfig att = [0, 2, 4] ∧
        (backoffSleeps downloaderRetryConfig att).sum = 6 ∧
        3 ≤ (backoffSleeps downloaderRetryConfig att).sum ∧
        (∀ resp : HttpResponse, sessionFetch downloaderRetryConfig att ≠ .ok resp)) ∧
    (∀ att : Nat → AttemptOutcome,
        isRetryableAttempt downloaderRetryConfig (att 0) = false →
        attemptsMade downloaderRetryConfig att = 1 ∧
        backoffSleeps downloaderRetryConfig att = []) ∧
    (∀ resp : HttpResponse,
        isRetryableAttempt downloaderRetryConfig (.response resp) =
          ([403, 429, 500, 502, 503, 504] : List Nat).contains resp.status) ∧
    (∀ m : String, isRetryableAttempt downloaderRetryConfig (.connError m) = true) ∧
    isRetryableAttempt downloaderRetryConfig .timedOut = true := by
  refine ⟨?_, ?_, fun _ => rfl, fun _ => rfl, rfl⟩
  · intro att hall
    have hfind : (List.range (downloaderRetryConfig.total + 1)).find?
        (fun i => !(isRetryableAttempt downloaderRetryConfig (att i))) = none := by
      apply List.find?_eq_none.mpr
      intro i hi
      simp [hall i (List.mem_range.mp hi)]
    have h4 : attemptsMade downloaderRetryConfig att = 4 := by
      unfold attemptsMade
      rw [hfind]
      rfl
    have hs : backoffSleeps downloaderRetryConfig att = [0, 2, 4] := by
      unfold backoffSleeps
      rw [h4]
      rfl
    refine ⟨h4, hs, by rw [hs]; rfl, by rw [hs]; decide, ?_⟩
    intro resp hx
    unfold sessionFetch at hx
    rw [hfind] at hx
    cases hx
  · intro att h0
    have hp : (fun i => !(isRetryableAttempt downloaderRetryConfig (att i))) 0 = true := by
      simp [h0]
    have hfind : (List.range (downloaderRetryConfig.total + 1)).find?
        (fun i => !(isRetryableAttempt downloaderRetryConfig (att i))) = some 0 := by
      rw [show List.range (downloaderRetryConfig.total + 1) = 0 :: [1, 2, 3] from rfl]
      exact List.find?_cons_of_pos _ hp
    have h1 : attemptsMade downloaderRetryConfig att = 1 := by
      unfold attemptsMade
      rw [hfind]
    refine ⟨h1, ?_⟩
    unfold backoffSleeps
    rw [h1]
    rfl

/-- C2 witness: an attempt stream of connection errors exhausts the budget
with 4 attempts and backoff sleeps of 0 s, 2 s and 4 s. -/
theorem C2_witness :
    attemptsMade downloaderRetryConfig (fun _ => .connError "refused") = 4 ∧
    backoffSleeps downloaderRetryConfig (fun _ => .connError "refused") = [0, 2, 4] := by
  have h := C2_retry_schedule.1 (fun _ => .connError "refused") (fun i _ => rfl)
  exact ⟨h.1, h.2.1⟩

/-- C10: for the URL `http://example.com/v1.2/image`, whose path's only dot
lies in a non-final segment, `_get_file_extension` returns `".2/image"` —
everything after the last dot, slash included — so the derived "extension"
is not a pure file extension and the final target path computed by
`_download_single_image` lands in a different directory than the task's
`target_path`. -/
theorem C10_dot_in_middle_segment :
    _get_file_extension "http://example.com/v1.2/image" "image/png" = .ok ".2/image" ∧
    strContains ".2/image" '/' = true ∧
    (_download_single_image ⟨"http://example.com/v1.2/image", "Lion", "wikipedia", "animals"⟩
        ⟨true, .ok ⟨200, "image/png", 1234⟩, none, 0⟩).target_path =
      "/tmp/wikipedia_animals/lion.2/image" ∧
    dirname "/tmp/wikipedia_animals/lion.2/image" ≠
      dirname (DownloadRequest.target_path
        ⟨"http://example.com/v1.2/image", "Lion", "wikipedia", "animals"⟩) := by
  refine ⟨rfl, rfl, rfl, by decide⟩

end Spec2Proof
